import Mathlib

/-!
Shallow embedding of the LedgerMind analytics core (`src/core/analytics.ts`,
`src/core/forecasting.ts`, `src/core/anomaly.ts`, `src/core/insight-engine.ts`).

Numeric model: TypeScript `number` arithmetic is modelled over `ℚ`.
`Math.round` rounds half toward positive infinity; `Number.prototype.toFixed`
rounds half away from zero (the sign is extracted first, per ECMA-262), and
`parseFloat(x.toFixed(d))` is modelled as exact decimal rounding to `d` places.
Division by zero yields `0` in `ℚ` where JavaScript would produce
`NaN`/`Infinity`; every spot where that convention is load-bearing is noted at
the definition.  `Math.sqrt` is not rational, so functions that take a square
root receive an explicit square-root oracle `sq : ℚ → ℚ`; theorems assume only
the properties of the real square root that they need (such as `sq 0 = 0`).
-/

set_option autoImplicit false

namespace LedgerMind

/-- JavaScript `Math.round`: round half toward positive infinity. -/
def jsRound (q : ℚ) : ℤ := ⌊q + 1/2⌋

/-- The integer mantissa produced by `Number.prototype.toFixed d`
(ECMA-262: the sign is extracted first, then the magnitude is rounded to the
nearest multiple of `10⁻ᵈ`, ties toward the larger mantissa).  The exact
rational model and the program's doubles agree except at non-dyadic decimal
ties, which a double never sits on exactly; every concrete input used below
evaluates this function away from ties or at a dyadic tie, where the two
agree. -/
def toFixedInt (q : ℚ) (d : ℕ) : ℤ :=
  if q < 0 then -⌊-q * 10 ^ d + 1/2⌋ else ⌊q * 10 ^ d + 1/2⌋

/-- The idiom `parseFloat(q.toFixed(d))` used throughout the core. -/
def roundTo (q : ℚ) (d : ℕ) : ℚ := (toFixedInt q d : ℚ) / 10 ^ d

/-- Left-pads a digit string with zeros to width `d`. -/
def natPad (s : String) (d : ℕ) : String :=
  if s.length < d then String.mk (List.replicate (d - s.length) '0') ++ s else s

/-- String rendering of `q.toFixed(d)`, used in insight/explanation text. -/
def toFixedStr (q : ℚ) (d : ℕ) : String :=
  let sign := if q < 0 then "-" else ""
  let n := (⌊|q| * 10 ^ d + 1/2⌋).toNat
  if d = 0 then sign ++ toString n
  else sign ++ toString (n / 10 ^ d) ++ "." ++ natPad (toString (n % 10 ^ d)) d

/-- Calendar date at day granularity.  `Transaction.date` is a JS `Date`; the
core only ever reads its calendar day (`toISOString().split('T')[0]`,
`getFullYear`/`getMonth`, `getDate`), so the time-of-day component is dropped
and UTC/local rendering are identified. -/
structure SDate where
  year : ℕ
  month : ℕ
  day : ℕ
deriving DecidableEq, Repr, Inhabited

/-- The daily grouping key `tx.date.toISOString().split('T')[0]`, i.e.
`"YYYY-MM-DD"`. -/
def dateKey (d : SDate) : String :=
  natPad (toString d.year) 4 ++ "-" ++ natPad (toString d.month) 2 ++ "-" ++
    natPad (toString d.day) 2

/-- The monthly grouping key
``​`${date.getFullYear()}-${String(date.getMonth() + 1).padStart(2, '0')}`​``. -/
def monthKey (d : SDate) : String :=
  toString d.year ++ "-" ++ natPad (toString d.month) 2

/-- Parses a `"YYYY-MM-DD"` key back into a calendar date (`new Date(s)`). -/
def parseISO (s : String) : SDate :=
  match (s.splitOn "-").map (fun t => t.toNat?.getD 0) with
  | [y, m, d] => ⟨y, m, d⟩
  | _ => ⟨1970, 1, 1⟩

def isLeapYear (y : ℕ) : Bool := (y % 4 == 0 && y % 100 != 0) || y % 400 == 0

def daysInMonth (y m : ℕ) : ℕ :=
  if m = 2 then (if isLeapYear y then 29 else 28)
  else if m = 4 ∨ m = 6 ∨ m = 9 ∨ m = 11 then 30 else 31

def nextDay (d : SDate) : SDate :=
  if d.day < daysInMonth d.year d.month then ⟨d.year, d.month, d.day + 1⟩
  else if d.month < 12 then ⟨d.year, d.month + 1, 1⟩
  else ⟨d.year + 1, 1, 1⟩

/-- Source `date.setDate(lastDate.getDate() + i)`: JS `Date` day overflow rolls
forward through the Gregorian calendar, which equals adding `i` days. -/
def addDays (d : SDate) : ℕ → SDate
  | 0 => d
  | n + 1 => nextDay (addDays d n)

/-- A transaction record (`src/types`, `Transaction`).  The bookkeeping fields
`id`, `businessId`, `category`, `createdAt`, `updatedAt` are never read by the
core and are omitted. -/
structure Transaction where
  date : SDate
  productName : String
  quantity : ℚ
  revenue : ℚ
  cost : ℚ
deriving DecidableEq, Repr, Inhabited

/-- Source `DailyRevenue` from `src/types`. -/
structure DailyRevenue where
  date : String
  revenue : ℚ
  cost : ℚ
  profit : ℚ
deriving DecidableEq, Repr, Inhabited

/-- Source `MonthlyRevenue` from `src/types`. -/
structure MonthlyRevenue where
  month : String
  revenue : ℚ
  cost : ℚ
  profit : ℚ
  profitMargin : ℚ
deriving DecidableEq, Repr, Inhabited

/-- Source `ProductPerformance` from `src/types`. -/
structure ProductPerformance where
  productName : String
  totalRevenue : ℚ
  totalCost : ℚ
  totalProfit : ℚ
  profitMargin : ℚ
  quantity : ℚ
  transactionCount : ℕ
deriving DecidableEq, Repr, Inhabited

/-- One bucket of the daily/monthly grouping `Map` in
`calculateDailyRevenue`/`calculateMonthlyRevenue`. -/
structure RCAcc where
  revenue : ℚ
  cost : ℚ
deriving DecidableEq, Repr, Inhabited

/-- The body of the grouping loops in `analytics.ts`:
`map.set(key, {revenue: (map.get(key) ?? zero).revenue + r, cost: … + c})` on
an insertion-ordered JS `Map` (updating an existing key keeps its position;
a fresh key is appended). -/
def bumpRC : List (String × RCAcc) → String → ℚ → ℚ → List (String × RCAcc)
  | [], k, r, c => [(k, ⟨r, c⟩)]
  | (k', v) :: rest, k, r, c =>
    if k' = k then (k', ⟨v.revenue + r, v.cost + c⟩) :: rest
    else (k', v) :: bumpRC rest k r c

/-- The `dailyMap` built by the loop in `calculateDailyRevenue`. -/
def dailyMap (transactions : List Transaction) : List (String × RCAcc) :=
  transactions.foldl (fun m tx => bumpRC m (dateKey tx.date) tx.revenue tx.cost) []

/-- Source `calculateDailyRevenue` (`analytics.ts`).  The final `.sort` compares date
keys with `localeCompare`, which on `"YYYY-MM-DD"` keys is codepoint order. -/
def calculateDailyRevenue (transactions : List Transaction) : List DailyRevenue :=
  ((dailyMap transactions).map (fun e =>
      { date := e.1
        revenue := roundTo e.2.revenue 2
        cost := roundTo e.2.cost 2
        profit := roundTo (e.2.revenue - e.2.cost) 2 : DailyRevenue })).mergeSort
    (fun a b => decide (a.date ≤ b.date))

/-- The `monthlyMap` built by the loop in `calculateMonthlyRevenue`. -/
def monthlyMap (transactions : List Transaction) : List (String × RCAcc) :=
  transactions.foldl (fun m tx => bumpRC m (monthKey tx.date) tx.revenue tx.cost) []

/-- Source `calculateMonthlyRevenue` (`analytics.ts`). -/
def calculateMonthlyRevenue (transactions : List Transaction) : List MonthlyRevenue :=
  ((monthlyMap transactions).map (fun e =>
      let profit := e.2.revenue - e.2.cost
      let profitMargin := if e.2.revenue > 0 then profit / e.2.revenue else 0
      { month := e.1
        revenue := roundTo e.2.revenue 2
        cost := roundTo e.2.cost 2
        profit := roundTo profit 2
        profitMargin := roundTo profitMargin 4 : MonthlyRevenue })).mergeSort
    (fun a b => decide (a.month ≤ b.month))

/-- One bucket of the product grouping `Map` in `calculateProductPerformance`. -/
structure PAcc where
  revenue : ℚ
  cost : ℚ
  quantity : ℚ
  count : ℕ
deriving DecidableEq, Repr, Inhabited

/-- The body of the product grouping loop (same JS `Map` semantics as
`bumpRC`). -/
def bumpP : List (String × PAcc) → String → ℚ → ℚ → ℚ → List (String × PAcc)
  | [], k, r, c, q => [(k, ⟨r, c, q, 1⟩)]
  | (k', v) :: rest, k, r, c, q =>
    if k' = k then (k', ⟨v.revenue + r, v.cost + c, v.quantity + q, v.count + 1⟩) :: rest
    else (k', v) :: bumpP rest k r c q

/-- The `productMap` built by the loop in `calculateProductPerformance`. -/
def productMap (transactions : List Transaction) : List (String × PAcc) :=
  transactions.foldl (fun m tx => bumpP m tx.productName tx.revenue tx.cost tx.quantity) []

/-- Source `calculateProductPerformance` (`analytics.ts`).  The comparator
`(a, b) => b.totalRevenue - a.totalRevenue` sorts descending by revenue;
JS `Array.sort` is stable, as is `List.mergeSort`. -/
def calculateProductPerformance (transactions : List Transaction) : List ProductPerformance :=
  ((productMap transactions).map (fun e =>
      let profit := e.2.revenue - e.2.cost
      let profitMargin := if e.2.revenue > 0 then profit / e.2.revenue else 0
      { productName := e.1
        totalRevenue := roundTo e.2.revenue 2
        totalCost := roundTo e.2.cost 2
        totalProfit := roundTo profit 2
        profitMargin := roundTo profitMargin 4
        quantity := roundTo e.2.quantity 2
        transactionCount := e.2.count : ProductPerformance })).mergeSort
    (fun a b => decide (b.totalRevenue ≤ a.totalRevenue))

/-- The record returned by `calculateTotals`. -/
structure Totals where
  totalRevenue : ℚ
  totalCost : ℚ
  totalProfit : ℚ
  profitMargin : ℚ
deriving DecidableEq, Repr, Inhabited

/-- Source `calculateTotals` (`analytics.ts`). -/
def calculateTotals (transactions : List Transaction) : Totals :=
  let totals := transactions.foldl
    (fun acc tx => (acc.1 + tx.revenue, acc.2 + tx.cost)) ((0 : ℚ), (0 : ℚ))
  let profit := totals.1 - totals.2
  let profitMargin := if totals.1 > 0 then profit / totals.1 else 0
  { totalRevenue := roundTo totals.1 2
    totalCost := roundTo totals.2 2
    totalProfit := roundTo profit 2
    profitMargin := roundTo profitMargin 4 }

/-- The record returned by `calculateRevenueConcentration`. -/
structure Concentration where
  topProductShare : ℚ
  top3ProductShare : ℚ
  diversificationScore : ℚ
deriving DecidableEq, Repr, Inhabited

/-- Source `calculateRevenueConcentration` (`analytics.ts`).  In
`products[0]?.totalRevenue / totalRevenue || 0` the `|| 0` only fires for the
`undefined / x = NaN` empty-list case, which cannot be reached past the
`totalRevenue === 0` guard with non-negative data; it is modelled by `headD`. -/
def calculateRevenueConcentration (products : List ProductPerformance) : Concentration :=
  let totalRevenue := (products.map (fun p => p.totalRevenue)).sum
  if totalRevenue = 0 then ⟨0, 0, 1⟩
  else
    let topProductShare := ((products.headD default).totalRevenue) / totalRevenue
    let top3ProductShare := ((products.take 3).map (fun p => p.totalRevenue)).sum / totalRevenue
    let diversificationScore := 1 - top3ProductShare
    ⟨roundTo topProductShare 4, roundTo top3ProductShare 4, roundTo diversificationScore 4⟩

/-- Source `calculateGrowthRate` (`analytics.ts`). -/
def calculateGrowthRate (monthlyRevenue : List MonthlyRevenue) : ℚ :=
  if monthlyRevenue.length < 2 then 0
  else
    let sorted := monthlyRevenue.mergeSort (fun a b => decide (a.month ≤ b.month))
    let firstMonth := sorted.headD default
    let lastMonth := sorted.getLastD default
    if firstMonth.revenue = 0 then 0
    else roundTo ((lastMonth.revenue - firstMonth.revenue) / firstMonth.revenue) 4

/-- Source `BusinessHealthMetrics` from `src/types`: `Math.round` makes every field
an integer, so the fields are carried as `ℤ`. -/
structure BusinessHealthMetrics where
  score : ℤ
  profitabilityScore : ℤ
  growthScore : ℤ
  stabilityScore : ℤ
  diversificationScore : ℤ
deriving DecidableEq, Repr, Inhabited

/-- Source `calculateBusinessHealth` (`analytics.ts`). -/
def calculateBusinessHealth (totals : Totals) (products : List ProductPerformance)
    (monthlyRevenue : List MonthlyRevenue) (anomalyCount : ℚ) : BusinessHealthMetrics :=
  let profitMargin := totals.profitMargin
  let growthRate := calculateGrowthRate monthlyRevenue
  let diversificationScore := (calculateRevenueConcentration products).diversificationScore
  let profitabilityScore := min (profitMargin * 100 * 3) 100
  let growthScore := min (max ((growthRate + 1/2) * 100) 0) 100
  let stabilityScore := max (100 - anomalyCount * 10) 0
  let diversificationScoreNormalized := diversificationScore * 100
  let score := profitabilityScore * (3/10) + growthScore * (1/4) +
    stabilityScore * (1/4) + diversificationScoreNormalized * (1/5)
  { score := jsRound (min (max score 0) 100)
    profitabilityScore := jsRound profitabilityScore
    growthScore := jsRound growthScore
    stabilityScore := jsRound stabilityScore
    diversificationScore := jsRound diversificationScoreNormalized }

/-- An `(x, y)` pair fed to the regression in `forecasting.ts`. -/
structure Point where
  x : ℚ
  y : ℚ
deriving DecidableEq, Repr, Inhabited

/-- The record returned by `calculateLinearRegression`. -/
structure RegressionFit where
  slope : ℚ
  intercept : ℚ
  r2 : ℚ
deriving DecidableEq, Repr, Inhabited

/-- Source `calculateLinearRegression` (`forecasting.ts`). -/
def calculateLinearRegression (data : List Point) : RegressionFit :=
  let n : ℚ := data.length
  if data.length = 0 then ⟨0, 0, 0⟩
  else
    let meanX := (data.map (fun p => p.x)).sum / n
    let meanY := (data.map (fun p => p.y)).sum / n
    let numerator := (data.map (fun p => (p.x - meanX) * (p.y - meanY))).sum
    let denominator := (data.map (fun p => (p.x - meanX) * (p.x - meanX))).sum
    let slope := if denominator ≠ 0 then numerator / denominator else 0
    let intercept := meanY - slope * meanX
    let ssRes : ℚ := (data.map (fun p => (p.y - (slope * p.x + intercept)) ^ 2)).sum
    let ssTot : ℚ := (data.map (fun p => (p.y - meanY) ^ 2)).sum
    let r2 := if ssTot ≠ 0 then 1 - ssRes / ssTot else 0
    ⟨roundTo slope 4, roundTo intercept 4, roundTo (max 0 r2) 4⟩

/-- Source `calculateStandardError` (`forecasting.ts`); `sq` is the `Math.sqrt`
oracle.  For `n ≤ 2` the guard returns `0` before any square root is taken. -/
def calculateStandardError (sq : ℚ → ℚ) (data : List Point)
    (slope intercept : ℚ) : ℚ :=
  if data.length ≤ 2 then 0
  else
    let sumSquaredErrors := (data.map (fun p => (p.y - (slope * p.x + intercept)) ^ 2)).sum
    sq (sumSquaredErrors / (data.length - 2 : ℚ))

/-- The trend union `'increasing' | 'decreasing' | 'stable'`. -/
inductive Trend
  | increasing
  | decreasing
  | stable
deriving DecidableEq, Repr, Inhabited

/-- Source `determineTrend` (`forecasting.ts`). -/
def determineTrend (slope r2 : ℚ) : Trend :=
  if r2 < 3/10 then .stable
  else if slope > 1/2 then .increasing
  else if slope < -(1/2) then .decreasing
  else .stable

/-- Source `ForecastPoint` from `src/types`; the nested `confidence` object is
flattened into `lower`/`upper`. -/
structure ForecastPoint where
  date : String
  predicted : ℚ
  lower : ℚ
  upper : ℚ
deriving DecidableEq, Repr, Inhabited

/-- Source `ForecastResult` from `src/types`. -/
structure ForecastResult where
  forecast : List ForecastPoint
  slope : ℚ
  intercept : ℚ
  r2 : ℚ
  trend : Trend
deriving DecidableEq, Repr, Inhabited

/-- The `regressionData` array in `forecastRevenue`: each already-sorted day
gets its index as `x` and its revenue as `y`. -/
def regressionData (sortedData : List DailyRevenue) : List Point :=
  sortedData.enum.map (fun e => ⟨(e.1 : ℚ), e.2.revenue⟩)

/-- Source `forecastRevenue` (`forecasting.ts`); `sq` is the `Math.sqrt` oracle.
Sorting by `new Date(a.date).getTime()` coincides with codepoint order on the
`"YYYY-MM-DD"` keys produced by `calculateDailyRevenue`; `1.96` is `49/25`. -/
def forecastRevenue (sq : ℚ → ℚ) (dailyRevenue : List DailyRevenue)
    (daysToForecast : ℕ) : ForecastResult :=
  if dailyRevenue = [] then ⟨[], 0, 0, 0, .stable⟩
  else
    let sortedData := dailyRevenue.mergeSort (fun a b => decide (a.date ≤ b.date))
    let fit := calculateLinearRegression (regressionData sortedData)
    let standardError := calculateStandardError sq (regressionData sortedData) fit.slope fit.intercept
    let lastDate := parseISO ((sortedData.getLastD default).date)
    let forecast := (List.range daysToForecast).map (fun i0 =>
      let i : ℕ := i0 + 1
      let x : ℚ := (sortedData.length : ℚ) + (i : ℚ) - 1
      let predicted := fit.slope * x + fit.intercept
      let marginOfError := (49/25) * standardError
      { date := dateKey (addDays lastDate i)
        predicted := max 0 (roundTo predicted 2)
        lower := max 0 (roundTo (predicted - marginOfError) 2)
        upper := roundTo (predicted + marginOfError) 2 : ForecastPoint })
    ⟨forecast, fit.slope, fit.intercept, fit.r2, determineTrend fit.slope fit.r2⟩

/-- Anomaly severity union. -/
inductive Severity
  | high
  | medium
  | low
deriving DecidableEq, Repr, Inhabited

/-- Anomaly type union. -/
inductive AnomalyType
  | spike
  | drop
deriving DecidableEq, Repr, Inhabited

/-- Source `calculateMean` (`anomaly.ts`). -/
def calculateMean (values : List ℚ) : ℚ :=
  if values = [] then 0 else values.sum / (values.length : ℚ)

/-- Source `calculateStandardDeviation` (`anomaly.ts`); `sq` is the `Math.sqrt`
oracle over the population variance. -/
def calculateStandardDeviation (sq : ℚ → ℚ) (values : List ℚ) (mean : ℚ) : ℚ :=
  if values = [] then 0
  else sq (((values.map (fun v => (v - mean) ^ 2)).sum) / (values.length : ℚ))

/-- Source `calculateZScore` (`anomaly.ts`): `0` when the standard deviation is `0`. -/
def calculateZScore (value mean stdDev : ℚ) : ℚ :=
  if stdDev = 0 then 0 else (value - mean) / stdDev

/-- Source `determineSeverity` (`anomaly.ts`). -/
def determineSeverity (zScore : ℚ) : Severity :=
  if 3 ≤ |zScore| then .high
  else if 5/2 ≤ |zScore| then .medium
  else .low

def severityOrder : Severity → ℕ
  | .high => 3
  | .medium => 2
  | .low => 1

def weekdayName (h : ℕ) : String :=
  (["Saturday", "Sunday", "Monday", "Tuesday", "Wednesday", "Thursday",
    "Friday"].getD h "Saturday")

def monthShortName (m : ℕ) : String :=
  (["Jan", "Feb", "Mar", "Apr", "May", "Jun", "Jul", "Aug", "Sep", "Oct",
    "Nov", "Dec"].getD (m - 1) "Jan")

/-- Day of week by Zeller's congruence (`0` = Saturday), standing in for
`toLocaleDateString('en-US', {weekday: 'long'})` rendered in UTC. -/
def dayOfWeek (d : SDate) : ℕ :=
  let m := if d.month < 3 then d.month + 12 else d.month
  let y := if d.month < 3 then d.year - 1 else d.year
  let k := y % 100
  let j := y / 100
  (d.day + (13 * (m + 1)) / 5 + k + k / 4 + j / 4 + 5 * j) % 7

/-- Source `generateExplanation` (`anomaly.ts`): display text only, never inspected
by any computation.  Locale-dependent date rendering is modelled as UTC
en-US; the `((revenue - mean) / mean) * 100` percentage is `0` for `mean = 0`
where JS would render `Infinity`/`NaN`. -/
def generateExplanation (date : String) (revenue mean : ℚ) (type : AnomalyType)
    (severity : Severity) : String :=
  let percentDiff := toFixedStr |((revenue - mean) / mean) * 100| 1
  let direction := match type with
    | .spike => "higher"
    | .drop => "lower"
  let severityText := match severity with
    | .high => "significantly"
    | .medium => "notably"
    | .low => "moderately"
  let dateObj := parseISO date
  "Revenue on " ++ weekdayName (dayOfWeek dateObj) ++ ", " ++
    monthShortName dateObj.month ++ " " ++ toString dateObj.day ++ " was " ++
    severityText ++ " " ++ direction ++ " than average (" ++ percentDiff ++
    "% deviation). This may indicate " ++
    (match type with
     | .spike => "exceptional sales performance, promotion impact, or seasonal demand"
     | .drop => "operational issues, reduced traffic, or external factors") ++ "."

/-- Source `Anomaly` from `src/types`. -/
structure Anomaly where
  date : String
  revenue : ℚ
  expectedRevenue : ℚ
  deviation : ℚ
  zScore : ℚ
  severity : Severity
  type : AnomalyType
  explanation : String
deriving DecidableEq, Repr, Inhabited

/-- Source `AnomalyDetectionResult` from `src/types`. -/
structure AnomalyDetectionResult where
  anomalies : List Anomaly
  mean : ℚ
  stdDev : ℚ
  threshold : ℚ
deriving DecidableEq, Repr, Inhabited

/-- Source `detectAnomalies` (`anomaly.ts`); `sq` is the `Math.sqrt` oracle.  The
push-inside-a-loop builds the list in day order (`filterMap`); the final
comparator `(a, b) => severityOrder[b] - severityOrder[a] || |b.z| - |a.z|`
keeps `a` before `b` iff `b`'s severity rank is lower, or equal rank and
`|b.zScore| ≤ |a.zScore|` (on the stored, rounded `zScore`). -/
def detectAnomalies (sq : ℚ → ℚ) (dailyRevenue : List DailyRevenue)
    (threshold : ℚ) : AnomalyDetectionResult :=
  if dailyRevenue = [] then ⟨[], 0, 0, threshold⟩
  else
    let revenues := dailyRevenue.map (fun day => day.revenue)
    let mean := calculateMean revenues
    let stdDev := calculateStandardDeviation sq revenues mean
    let anomalies := dailyRevenue.filterMap (fun day =>
      let zScore := calculateZScore day.revenue mean stdDev
      if threshold ≤ |zScore| then
        let type : AnomalyType := if 0 < zScore then .spike else .drop
        let severity := determineSeverity zScore
        some { date := day.date
               revenue := day.revenue
               expectedRevenue := roundTo mean 2
               deviation := roundTo (day.revenue - mean) 2
               zScore := roundTo zScore 2
               severity := severity
               type := type
               explanation := generateExplanation day.date day.revenue mean type severity }
      else none)
    let sortedAnomalies := anomalies.mergeSort (fun a b =>
      (severityOrder b.severity < severityOrder a.severity) ||
        (severityOrder b.severity == severityOrder a.severity &&
          decide (|b.zScore| ≤ |a.zScore|)))
    ⟨sortedAnomalies, roundTo mean 2, roundTo stdDev 2, threshold⟩

/-- Insight priority union. -/
inductive Priority
  | high
  | medium
  | low
deriving DecidableEq, Repr, Inhabited

/-- Insight category union. -/
inductive Category
  | revenue
  | profitability
  | risk
  | opportunity
  | warning
deriving DecidableEq, Repr, Inhabited

/-- Source `BusinessInsight` from `src/types`. -/
structure BusinessInsight where
  category : Category
  priority : Priority
  title : String
  description : String
  impact : String
  recommendation : String
deriving DecidableEq, Repr, Inhabited

/-- The nested `revenueConcentration` object of `MetricsForInsight`. -/
structure ConcentrationM where
  topProductShare : ℚ
  top3ProductShare : ℚ
deriving DecidableEq, Repr, Inhabited

/-- The nested `trendAnalysis` object of `MetricsForInsight`.  The TS type
declares `recentTrend : 'up' | 'down' | 'stable'`, but
`prepareMetricsForInsight` assigns the forecaster's
`'increasing' | 'decreasing' | 'stable'` through an `any`-typed parameter, so
at runtime the field holds an arbitrary string and is modelled as `String`. -/
structure TrendAnalysisM where
  recentTrend : String
  growthRate : ℚ
deriving DecidableEq, Repr, Inhabited

/-- Source `MetricsForInsight` from `src/types`.  `anomalyCount` is always an
anomaly-list length, hence `ℕ`; `healthScore` is always the rounded health
score, hence `ℤ`. -/
structure MetricsForInsight where
  totalRevenue : ℚ
  totalProfit : ℚ
  profitMargin : ℚ
  healthScore : ℤ
  revenueConcentration : ConcentrationM
  trendAnalysis : TrendAnalysisM
  anomalyCount : ℕ
  forecastTrend : String
deriving DecidableEq, Repr, Inhabited

/-- The `keyMetrics` record of `InsightEngineResult`. -/
structure KeyMetrics where
  totalRevenue : ℚ
  totalProfit : ℚ
  profitMargin : ℚ
  healthScore : ℤ
  growthRate : ℚ
deriving DecidableEq, Repr, Inhabited

/-- Source `InsightEngineResult` from `src/types`; `generatedAt : new Date()` is the
ambient wall clock, passed in explicitly as a millisecond timestamp. -/
structure InsightEngineResult where
  insights : List BusinessInsight
  executiveSummary : String
  keyMetrics : KeyMetrics
  generatedAt : ℤ
deriving DecidableEq, Repr, Inhabited

/-- Source `generateFallbackInsights` (`insight-engine.ts`).  The wall clock read by
`generatedAt: new Date()` is the explicit `now` parameter — the only impure
input of the function; everything else is computed from `metrics`. -/
def generateFallbackInsights (now : ℤ) (metrics : MetricsForInsight) :
    InsightEngineResult :=
  let insights : List BusinessInsight :=
    (if metrics.revenueConcentration.top3ProductShare > 7/10 then
      [{ category := .risk
         priority := .high
         title := "High Revenue Concentration Risk"
         description := "Your top 3 products account for " ++
           toFixedStr (metrics.revenueConcentration.top3ProductShare * 100) 1 ++
           "% of total revenue, creating dependency risk."
         impact := "Loss of any top product could severely impact overall business revenue."
         recommendation := "Diversify product portfolio and develop new revenue streams to reduce concentration risk." }]
     else []) ++
    (if metrics.profitMargin < 3/20 then
      [{ category := .warning
         priority := .high
         title := "Low Profit Margin Alert"
         description := "Current profit margin of " ++
           toFixedStr (metrics.profitMargin * 100) 1 ++
           "% is below healthy threshold of 15%."
         impact := "Thin margins leave little buffer for unexpected costs or market changes."
         recommendation := "Review pricing strategy, negotiate better supplier terms, or reduce operational costs." }]
     else if metrics.profitMargin > 3/10 then
      [{ category := .profitability
         priority := .medium
         title := "Strong Profit Margins"
         description := "Excellent profit margin of " ++
           toFixedStr (metrics.profitMargin * 100) 1 ++
           "% indicates efficient operations."
         impact := "Strong margins provide financial cushion and growth capital."
         recommendation := "Maintain current efficiency while exploring reinvestment opportunities for growth." }]
     else []) ++
    (if metrics.trendAnalysis.recentTrend = "up" then
      [{ category := .opportunity
         priority := .medium
         title := "Positive Growth Trajectory"
         description := "Revenue growing at " ++
           toFixedStr (metrics.trendAnalysis.growthRate * 100) 1 ++
           "% with upward trend."
         impact := "Growth momentum creates opportunities for expansion and market share."
         recommendation := "Capitalize on growth by increasing inventory, hiring capacity, or expanding marketing." }]
     else if metrics.trendAnalysis.recentTrend = "down" then
      [{ category := .warning
         priority := .high
         title := "Declining Revenue Trend"
         description := "Revenue declining at " ++
           toFixedStr |metrics.trendAnalysis.growthRate * 100| 1 ++
           "% with downward trend."
         impact := "Continued decline could threaten business sustainability."
         recommendation := "Investigate root causes: market conditions, competition, product quality, or customer satisfaction." }]
     else []) ++
    (if 5 < metrics.anomalyCount then
      [{ category := .risk
         priority := .medium
         title := "Revenue Volatility Detected"
         description := toString metrics.anomalyCount ++
           " revenue anomalies detected, indicating unstable patterns."
         impact := "High volatility makes forecasting and planning difficult."
         recommendation := "Stabilize revenue streams through consistent marketing, pricing, and customer retention efforts." }]
     else if metrics.anomalyCount = 0 then
      [{ category := .profitability
         priority := .low
         title := "Stable Revenue Patterns"
         description := "No significant anomalies detected, indicating stable operations."
         impact := "Predictable revenue enables confident business planning."
         recommendation := "Maintain operational consistency while exploring controlled growth initiatives." }]
     else []) ++
    (if 80 ≤ metrics.healthScore then
      [{ category := .opportunity
         priority := .low
         title := "Excellent Business Health"
         description := "Health score of " ++ toString metrics.healthScore ++
           "/100 indicates strong overall performance."
         impact := "Strong position enables strategic investments and expansion."
         recommendation := "Focus on sustainable growth and market leadership opportunities." }]
     else if metrics.healthScore < 50 then
      [{ category := .warning
         priority := .high
         title := "Business Health Concerns"
         description := "Health score of " ++ toString metrics.healthScore ++
           "/100 requires immediate attention."
         impact := "Low health score indicates multiple risk factors need addressing."
         recommendation := "Prioritize profitability improvement, cost reduction, and revenue stabilization." }]
     else [])
  let executiveSummary :=
    (if 70 ≤ metrics.healthScore then
      "Business is performing well with " ++
        toFixedStr (metrics.profitMargin * 100) 1 ++ "% profit margin and " ++
        metrics.trendAnalysis.recentTrend ++ " revenue trend. "
     else if 50 ≤ metrics.healthScore then
      "Business shows moderate health with room for improvement. "
     else
      "Business requires urgent attention across multiple areas. ") ++
    "Key priorities: " ++
    String.intercalate ", "
      ((insights.filter (fun i => decide (i.priority = Priority.high))).map
        (fun i => i.title.toLower)) ++ "."
  { insights := insights.take 6
    executiveSummary := executiveSummary
    keyMetrics := ⟨metrics.totalRevenue, metrics.totalProfit,
      metrics.profitMargin, metrics.healthScore, metrics.trendAnalysis.growthRate⟩
    generatedAt := now }

/-- Source `AnalyticsSummary` from `src/types`. -/
structure AnalyticsSummary where
  totalRevenue : ℚ
  totalCost : ℚ
  totalProfit : ℚ
  profitMargin : ℚ
  healthScore : ℤ
  dailyRevenue : List DailyRevenue
  monthlyRevenue : List MonthlyRevenue
  topProducts : List ProductPerformance
  bottomProducts : List ProductPerformance
deriving DecidableEq, Repr, Inhabited

/-- Rendering of the forecaster's trend union as the JS string it is at
runtime. -/
def trendToString : Trend → String
  | .increasing => "increasing"
  | .decreasing => "decreasing"
  | .stable => "stable"

/-- Source `prepareMetricsForInsight` (`insight-engine.ts`).  `slice(-3)` keeps the
final three months.  Divisions that JS would turn into `NaN`/`Infinity`
(`totalRevenue = 0`, or an empty `topProducts` caught by `|| 0`) are modelled
as `0` in `ℚ`; no claim depends on those degenerate values. -/
def prepareMetricsForInsight (analytics : AnalyticsSummary)
    (forecast : ForecastResult) (anomalies : AnomalyDetectionResult) :
    MetricsForInsight :=
  let recentMonths := analytics.monthlyRevenue.drop (analytics.monthlyRevenue.length - 3)
  let growthRate :=
    if 2 ≤ recentMonths.length then
      ((recentMonths.getLastD default).revenue - (recentMonths.headD default).revenue) /
        (recentMonths.headD default).revenue
    else 0
  { totalRevenue := analytics.totalRevenue
    totalProfit := analytics.totalProfit
    profitMargin := analytics.profitMargin
    healthScore := analytics.healthScore
    revenueConcentration :=
      ⟨(analytics.topProducts.headD default).totalRevenue / analytics.totalRevenue
      , ((analytics.topProducts.take 3).map (fun p => p.totalRevenue)).sum /
          analytics.totalRevenue⟩
    trendAnalysis := ⟨trendToString forecast.trend, growthRate⟩
    anomalyCount := anomalies.anomalies.length
    forecastTrend := trendToString forecast.trend }

/-! Helper lemmas about the JS rounding primitives. -/

lemma toFixedInt_of_mul_eq_int (q : ℚ) (d : ℕ) (n : ℤ) (h : q * 10 ^ d = (n : ℚ)) :
    toFixedInt q d = n := by
  unfold toFixedInt
  have hhalf : ⌊(1/2 : ℚ)⌋ = 0 := by norm_num
  split
  · have h2 : -q * 10 ^ d + 1/2 = ((-n : ℤ) : ℚ) + 1/2 := by push_cast; linarith
    rw [h2, Int.floor_int_add, hhalf]
    omega
  · rw [show q * 10 ^ d + 1/2 = (n : ℚ) + 1/2 by rw [h], Int.floor_int_add, hhalf]
    omega

lemma roundTo_eq_self (q : ℚ) (d : ℕ) (n : ℤ) (h : q * 10 ^ d = (n : ℚ)) :
    roundTo q d = q := by
  unfold roundTo
  rw [toFixedInt_of_mul_eq_int q d n h]
  have hp : ((10 : ℚ) ^ d) ≠ 0 := by positivity
  field_simp
  linarith [h]

lemma roundTo_zero (d : ℕ) : roundTo 0 d = 0 :=
  roundTo_eq_self 0 d 0 (by norm_num)

lemma roundTo_one (d : ℕ) : roundTo 1 d = 1 :=
  roundTo_eq_self 1 d (10 ^ d) (by push_cast; ring)

lemma toFixedInt_mono (d : ℕ) (q q' : ℚ) (h : q ≤ q') :
    toFixedInt q d ≤ toFixedInt q' d := by
  unfold toFixedInt
  have hp : (0 : ℚ) < 10 ^ d := by positivity
  by_cases hq : q < 0 <;> by_cases hq' : q' < 0
  · rw [if_pos hq, if_pos hq']
    exact neg_le_neg (Int.floor_le_floor (by nlinarith))
  · rw [if_pos hq, if_neg hq']
    push_neg at hq'
    have l1 : 0 ≤ ⌊-q * 10 ^ d + 1/2⌋ := Int.floor_nonneg.mpr (by nlinarith)
    have l2 : 0 ≤ ⌊q' * 10 ^ d + 1/2⌋ := Int.floor_nonneg.mpr (by nlinarith)
    omega
  · exact absurd (lt_of_le_of_lt h hq') hq
  · rw [if_neg hq, if_neg hq']
    exact Int.floor_le_floor (by nlinarith)

lemma roundTo_mono (d : ℕ) (q q' : ℚ) (h : q ≤ q') : roundTo q d ≤ roundTo q' d := by
  unfold roundTo
  have hp : (0 : ℚ) < 10 ^ d := by positivity
  have hm := toFixedInt_mono d q q' h
  gcongr

lemma roundTo_nonneg (d : ℕ) (q : ℚ) (h : 0 ≤ q) : 0 ≤ roundTo q d := by
  rw [← roundTo_zero d]
  exact roundTo_mono d 0 q h

lemma roundTo_le_one (d : ℕ) (q : ℚ) (h : q ≤ 1) : roundTo q d ≤ 1 := by
  rw [← roundTo_one d]
  exact roundTo_mono d q 1 h

lemma toFixedInt_sub_abs_le (q : ℚ) (d : ℕ) :
    |(toFixedInt q d : ℚ) - q * 10 ^ d| ≤ 1/2 := by
  unfold toFixedInt
  split
  · have l1 : ((⌊-q * 10 ^ d + 1/2⌋ : ℤ) : ℚ) ≤ -q * 10 ^ d + 1/2 := Int.floor_le _
    have l2 : -q * 10 ^ d + 1/2 < (⌊-q * 10 ^ d + 1/2⌋ : ℚ) + 1 := Int.lt_floor_add_one _
    push_cast
    rw [abs_le]
    constructor <;> linarith
  · have l1 : ((⌊q * 10 ^ d + 1/2⌋ : ℤ) : ℚ) ≤ q * 10 ^ d + 1/2 := Int.floor_le _
    have l2 : q * 10 ^ d + 1/2 < (⌊q * 10 ^ d + 1/2⌋ : ℚ) + 1 := Int.lt_floor_add_one _
    rw [abs_le]
    constructor <;> linarith

lemma roundTo_sub_abs_le (q : ℚ) (d : ℕ) : |roundTo q d - q| ≤ 1 / (2 * 10 ^ d) := by
  have hp : (0 : ℚ) < 10 ^ d := by positivity
  have key := toFixedInt_sub_abs_le q d
  have : roundTo q d - q = ((toFixedInt q d : ℚ) - q * 10 ^ d) / 10 ^ d := by
    unfold roundTo
    field_simp
    ring
  rw [this, abs_div, abs_of_pos hp, div_le_div_iff₀ hp (by positivity)]
  nlinarith [key]

lemma jsRound_nonneg (q : ℚ) (h : 0 ≤ q) : 0 ≤ jsRound q :=
  Int.floor_nonneg.mpr (by linarith)

lemma jsRound_le (q : ℚ) (n : ℤ) (h : q ≤ (n : ℚ)) : jsRound q ≤ n :=
  Int.floor_le_iff.mpr (by linarith)

/-! Helper lemmas about `calculateRevenueConcentration`. -/

lemma concentration_of_sum_eq_zero (products : List ProductPerformance)
    (h : (products.map (fun p => p.totalRevenue)).sum = 0) :
    calculateRevenueConcentration products = ⟨0, 0, 1⟩ := by
  unfold calculateRevenueConcentration
  rw [if_pos h]

lemma total_revenue_nonneg (products : List ProductPerformance)
    (h : ∀ p ∈ products, 0 ≤ p.totalRevenue) :
    0 ≤ (products.map (fun p => p.totalRevenue)).sum := by
  refine List.sum_nonneg ?_
  intro x hx
  obtain ⟨p, hp, rfl⟩ := List.mem_map.mp hx
  exact h p hp

lemma top3_sum_nonneg (products : List ProductPerformance)
    (h : ∀ p ∈ products, 0 ≤ p.totalRevenue) :
    0 ≤ ((products.take 3).map (fun p => p.totalRevenue)).sum := by
  refine List.sum_nonneg ?_
  intro x hx
  obtain ⟨p, hp, rfl⟩ := List.mem_map.mp hx
  exact h p (List.take_subset 3 products hp)

lemma top3_sum_le_total (products : List ProductPerformance)
    (h : ∀ p ∈ products, 0 ≤ p.totalRevenue) :
    ((products.take 3).map (fun p => p.totalRevenue)).sum ≤
      (products.map (fun p => p.totalRevenue)).sum := by
  have key := List.sum_take_add_sum_drop (products.map (fun p => p.totalRevenue)) 3
  have hdrop : 0 ≤ ((products.map (fun p => p.totalRevenue)).drop 3).sum := by
    refine List.sum_nonneg ?_
    intro x hx
    have hx' : x ∈ products.map (fun p => p.totalRevenue) := List.drop_subset 3 _ hx
    obtain ⟨p, hp, rfl⟩ := List.mem_map.mp hx'
    exact h p hp
  rw [List.map_take]
  linarith

lemma diversification_mem (products : List ProductPerformance)
    (h : ∀ p ∈ products, 0 ≤ p.totalRevenue) :
    0 ≤ (calculateRevenueConcentration products).diversificationScore ∧
      (calculateRevenueConcentration products).diversificationScore ≤ 1 := by
  unfold calculateRevenueConcentration
  by_cases hz : (products.map (fun p => p.totalRevenue)).sum = 0
  · rw [if_pos hz]
    norm_num
  · rw [if_neg hz]
    have hTpos : 0 < (products.map (fun p => p.totalRevenue)).sum :=
      lt_of_le_of_ne (total_revenue_nonneg products h) (Ne.symm hz)
    have h3nn := top3_sum_nonneg products h
    have h3le := top3_sum_le_total products h
    have hshare0 : 0 ≤ ((products.take 3).map (fun p => p.totalRevenue)).sum /
        (products.map (fun p => p.totalRevenue)).sum := div_nonneg h3nn hTpos.le
    have hshare1 : ((products.take 3).map (fun p => p.totalRevenue)).sum /
        (products.map (fun p => p.totalRevenue)).sum ≤ 1 :=
      (div_le_one hTpos).mpr h3le
    exact ⟨roundTo_nonneg 4 _ (by linarith), roundTo_le_one 4 _ (by linarith)⟩

/-- C6 counterexample: the claim fails as stated.  With products of revenue
`1, 1, 1, 93` the top-3 share is the dyadic `3/96 = 0.03125` (exact in IEEE
doubles too), which rounds up to `0.0313`, while the diversification score
`0.96875` rounds up to `0.9688 ≠ 1 − 0.0313 = 0.9687`, so the returned
`diversificationScore` is not exactly `1 − top3ProductShare`; and with a
negative-revenue product (`5, −1`) the chain
`topProductShare ≤ top3ProductShare` fails outright. -/
theorem C6_counterexample :
    ((calculateRevenueConcentration
        [⟨"A", 1, 0, 0, 0, 0, 1⟩, ⟨"B", 1, 0, 0, 0, 0, 1⟩,
         ⟨"C", 1, 0, 0, 0, 0, 1⟩, ⟨"D", 93, 0, 0, 0, 0, 1⟩]).diversificationScore ≠
      1 - (calculateRevenueConcentration
        [⟨"A", 1, 0, 0, 0, 0, 1⟩, ⟨"B", 1, 0, 0, 0, 0, 1⟩,
         ⟨"C", 1, 0, 0, 0, 0, 1⟩, ⟨"D", 93, 0, 0, 0, 0, 1⟩]).top3ProductShare) ∧
    ¬((calculateRevenueConcentration
        [⟨"E", 5, 0, 0, 0, 0, 1⟩, ⟨"F", -1, 0, 0, 0, 0, 1⟩]).topProductShare ≤
      (calculateRevenueConcentration
        [⟨"E", 5, 0, 0, 0, 0, 1⟩, ⟨"F", -1, 0, 0, 0, 0, 1⟩]).top3ProductShare) := by
  constructor <;>
    · simp only [calculateRevenueConcentration]
      norm_num [roundTo, toFixedInt]

/-- C6 (amended): for products with non-negative revenues,
`topProductShare ≤ top3ProductShare ≤ 1`, the returned `diversificationScore`
equals `1 − top3ProductShare` up to the independent 4-decimal rounding of the
two fields (within `10⁻⁴`; the identity is exact before rounding), and a zero
total yields `(0, 0, 1)`. -/
theorem C6_concentration_amended (products : List ProductPerformance)
    (h : ∀ p ∈ products, 0 ≤ p.totalRevenue) :
    (calculateRevenueConcentration products).topProductShare ≤
        (calculateRevenueConcentration products).top3ProductShare ∧
      (calculateRevenueConcentration products).top3ProductShare ≤ 1 ∧
      |(calculateRevenueConcentration products).diversificationScore -
          (1 - (calculateRevenueConcentration products).top3ProductShare)| ≤ 1/10000 ∧
      ((products.map (fun p => p.totalRevenue)).sum = 0 →
        calculateRevenueConcentration products = ⟨0, 0, 1⟩) := by
  by_cases hz : (products.map (fun p => p.totalRevenue)).sum = 0
  · rw [concentration_of_sum_eq_zero products hz]
    refine ⟨by norm_num, by norm_num, by norm_num, fun _ => rfl⟩
  · have hTpos : 0 < (products.map (fun p => p.totalRevenue)).sum :=
      lt_of_le_of_ne (total_revenue_nonneg products h) (Ne.symm hz)
    have h3nn := top3_sum_nonneg products h
    have h3le := top3_sum_le_total products h
    unfold calculateRevenueConcentration
    rw [if_neg hz]
    refine ⟨?_, ?_, ?_, fun hzz => absurd hzz hz⟩
    · refine roundTo_mono 4 _ _ ?_
      have hhead : (products.headD default).totalRevenue ≤
          ((products.take 3).map (fun p => p.totalRevenue)).sum := by
        cases products with
        | nil => simp at hz
        | cons p rest =>
          have h2nn : 0 ≤ ((rest.take 2).map (fun q => q.totalRevenue)).sum := by
            refine List.sum_nonneg ?_
            intro x hx
            obtain ⟨q, hq, rfl⟩ := List.mem_map.mp hx
            exact h q (List.mem_cons_of_mem p (List.take_subset 2 rest hq))
          simp only [List.headD_cons, List.take_succ_cons, List.map_cons, List.sum_cons]
          linarith
      gcongr
    · exact roundTo_le_one 4 _ ((div_le_one hTpos).mpr h3le)
    · have e1 := roundTo_sub_abs_le
        (1 - ((products.take 3).map (fun p => p.totalRevenue)).sum /
          (products.map (fun p => p.totalRevenue)).sum) 4
      have e2 := roundTo_sub_abs_le
        (((products.take 3).map (fun p => p.totalRevenue)).sum /
          (products.map (fun p => p.totalRevenue)).sum) 4
      have hnum : ((1 : ℚ) / (2 * 10 ^ 4)) = 1/20000 := by norm_num
      rw [hnum] at e1 e2
      have tri := abs_add
        (roundTo (1 - ((products.take 3).map (fun p => p.totalRevenue)).sum /
            (products.map (fun p => p.totalRevenue)).sum) 4 -
          (1 - ((products.take 3).map (fun p => p.totalRevenue)).sum /
            (products.map (fun p => p.totalRevenue)).sum))
        (roundTo (((products.take 3).map (fun p => p.totalRevenue)).sum /
            (products.map (fun p => p.totalRevenue)).sum) 4 -
          ((products.take 3).map (fun p => p.totalRevenue)).sum /
            (products.map (fun p => p.totalRevenue)).sum)
      dsimp only
      calc |roundTo (1 - ((products.take 3).map (fun p => p.totalRevenue)).sum /
              (products.map (fun p => p.totalRevenue)).sum) 4 -
            (1 - roundTo (((products.take 3).map (fun p => p.totalRevenue)).sum /
              (products.map (fun p => p.totalRevenue)).sum) 4)|
          = |(roundTo (1 - ((products.take 3).map (fun p => p.totalRevenue)).sum /
                (products.map (fun p => p.totalRevenue)).sum) 4 -
              (1 - ((products.take 3).map (fun p => p.totalRevenue)).sum /
                (products.map (fun p => p.totalRevenue)).sum)) +
             (roundTo (((products.take 3).map (fun p => p.totalRevenue)).sum /
                (products.map (fun p => p.totalRevenue)).sum) 4 -
              ((products.take 3).map (fun p => p.totalRevenue)).sum /
                (products.map (fun p => p.totalRevenue)).sum)| := by ring_nf
        _ ≤ _ := tri
        _ ≤ 1/10000 := by linarith

/-- Witness for C6: the amended statement instantiated at two products with
revenues `4` and `2`. -/
theorem C6_witness :
    (calculateRevenueConcentration
        [⟨"A", 4, 0, 0, 0, 0, 1⟩, ⟨"B", 2, 0, 0, 0, 0, 1⟩]).topProductShare ≤
      (calculateRevenueConcentration
        [⟨"A", 4, 0, 0, 0, 0, 1⟩, ⟨"B", 2, 0, 0, 0, 0, 1⟩]).top3ProductShare ∧
    (calculateRevenueConcentration
        [⟨"A", 4, 0, 0, 0, 0, 1⟩, ⟨"B", 2, 0, 0, 0, 0, 1⟩]).top3ProductShare ≤ 1 ∧
    |(calculateRevenueConcentration
        [⟨"A", 4, 0, 0, 0, 0, 1⟩, ⟨"B", 2, 0, 0, 0, 0, 1⟩]).diversificationScore -
        (1 - (calculateRevenueConcentration
          [⟨"A", 4, 0, 0, 0, 0, 1⟩, ⟨"B", 2, 0, 0, 0, 0, 1⟩]).top3ProductShare)| ≤ 1/10000 ∧
    ((([⟨"A", 4, 0, 0, 0, 0, 1⟩, ⟨"B", 2, 0, 0, 0, 0, 1⟩] :
        List ProductPerformance).map (fun p => p.totalRevenue)).sum = 0 →
      calculateRevenueConcentration
        [⟨"A", 4, 0, 0, 0, 0, 1⟩, ⟨"B", 2, 0, 0, 0, 0, 1⟩] = ⟨0, 0, 1⟩) :=
  C6_concentration_amended [⟨"A", 4, 0, 0, 0, 0, 1⟩, ⟨"B", 2, 0, 0, 0, 0, 1⟩]
    (by
      intro p hp
      simp only [List.mem_cons, List.not_mem_nil, or_false] at hp
      rcases hp with rfl | rfl <;> norm_num)

/-- C1 counterexample: at profit margin `0.4 ≥ 1/3` with zero anomalies, zero
growth rate and full diversification, `calculateBusinessHealth` returns
score `88`, not `100`: with zero growth the growth component contributes only
`50`, so the weighted sum is `87.5`. -/
theorem C1_counterexample :
    (calculateBusinessHealth ⟨1000, 600, 400, 2/5⟩ [] [] 0).score ≠ 100 ∧
    (calculateBusinessHealth ⟨1000, 600, 400, 2/5⟩ [] [] 0).score = 88 := by
  constructor <;>
  · simp only [calculateBusinessHealth, calculateGrowthRate, calculateRevenueConcentration]
    norm_num [jsRound, min_def, max_def]

/-- C1 (amended): for every input with profit margin at least `1/3`,
anomaly count `0`, growth rate `0` and full diversification
(`diversificationScore = 1`), `calculateBusinessHealth` returns overall
score `88` (the saturation value claimed as `100` is not reachable with zero
growth: `0.3·100 + 0.25·50 + 0.25·100 + 0.2·100 = 87.5`, rounded to `88`). -/
theorem C1_saturation_amended (totals : Totals) (products : List ProductPerformance)
    (monthlyRevenue : List MonthlyRevenue)
    (h1 : 1/3 ≤ totals.profitMargin)
    (h2 : calculateGrowthRate monthlyRevenue = 0)
    (h3 : (calculateRevenueConcentration products).diversificationScore = 1) :
    (calculateBusinessHealth totals products monthlyRevenue 0).score = 88 := by
  have hps : min (totals.profitMargin * 100 * 3) 100 = 100 := min_eq_right (by linarith)
  simp only [calculateBusinessHealth, h2, h3, hps]
  norm_num [jsRound, min_def, max_def]

/-- Witness for C1: the amended statement instantiated at margin `0.4`, no
products, no months, zero anomalies. -/
theorem C1_witness :
    (calculateBusinessHealth ⟨1000, 600, 400, 2/5⟩ [] [] 0).score = 88 :=
  C1_saturation_amended ⟨1000, 600, 400, 2/5⟩ [] [] (by norm_num)
    (by simp [calculateGrowthRate])
    (by simp [calculateRevenueConcentration])

/-- C7: for every finite non-negative input (margin `≥ 0`, products with
non-negative revenues, anomaly count `≥ 0`), all five fields returned by
`calculateBusinessHealth` are integers (by their `ℤ` type) in `[0, 100]`. -/
theorem C7_health_range (totals : Totals) (products : List ProductPerformance)
    (monthlyRevenue : List MonthlyRevenue) (anomalyCount : ℚ)
    (h1 : 0 ≤ totals.profitMargin)
    (h2 : ∀ p ∈ products, 0 ≤ p.totalRevenue)
    (h3 : 0 ≤ anomalyCount) :
    (0 ≤ (calculateBusinessHealth totals products monthlyRevenue anomalyCount).score ∧
      (calculateBusinessHealth totals products monthlyRevenue anomalyCount).score ≤ 100) ∧
    (0 ≤ (calculateBusinessHealth totals products monthlyRevenue anomalyCount).profitabilityScore ∧
      (calculateBusinessHealth totals products monthlyRevenue anomalyCount).profitabilityScore ≤ 100) ∧
    (0 ≤ (calculateBusinessHealth totals products monthlyRevenue anomalyCount).growthScore ∧
      (calculateBusinessHealth totals products monthlyRevenue anomalyCount).growthScore ≤ 100) ∧
    (0 ≤ (calculateBusinessHealth totals products monthlyRevenue anomalyCount).stabilityScore ∧
      (calculateBusinessHealth totals products monthlyRevenue anomalyCount).stabilityScore ≤ 100) ∧
    (0 ≤ (calculateBusinessHealth totals products monthlyRevenue anomalyCount).diversificationScore ∧
      (calculateBusinessHealth totals products monthlyRevenue anomalyCount).diversificationScore ≤ 100) := by
  obtain ⟨hd0, hd1⟩ := diversification_mem products h2
  simp only [calculateBusinessHealth]
  refine ⟨⟨?_, ?_⟩, ⟨?_, ?_⟩, ⟨?_, ?_⟩, ⟨?_, ?_⟩, ⟨?_, ?_⟩⟩
  · exact jsRound_nonneg _ (le_min (le_max_right _ _) (by norm_num))
  · refine jsRound_le _ 100 ?_
    push_cast
    exact min_le_right _ _
  · refine jsRound_nonneg _ (le_min ?_ (by norm_num))
    have := mul_nonneg (mul_nonneg h1 (by norm_num : (0:ℚ) ≤ 100)) (by norm_num : (0:ℚ) ≤ 3)
    linarith
  · refine jsRound_le _ 100 ?_
    push_cast
    exact min_le_right _ _
  · exact jsRound_nonneg _ (le_min (le_max_right _ _) (by norm_num))
  · refine jsRound_le _ 100 ?_
    push_cast
    exact min_le_right _ _
  · exact jsRound_nonneg _ (le_max_right _ _)
  · refine jsRound_le _ 100 ?_
    push_cast
    refine max_le (by nlinarith) (by norm_num)
  · refine jsRound_nonneg _ (by nlinarith)
  · refine jsRound_le _ 100 ?_
    push_cast
    nlinarith

/-- Witness for C7: the range statement instantiated at a concrete
non-negative input. -/
theorem C7_witness :
    (0 ≤ (calculateBusinessHealth ⟨100, 50, 50, 1/2⟩ [⟨"A", 10, 0, 0, 0, 0, 1⟩] [] 0).score ∧
      (calculateBusinessHealth ⟨100, 50, 50, 1/2⟩ [⟨"A", 10, 0, 0, 0, 0, 1⟩] [] 0).score ≤ 100) ∧
    (0 ≤ (calculateBusinessHealth ⟨100, 50, 50, 1/2⟩ [⟨"A", 10, 0, 0, 0, 0, 1⟩] [] 0).profitabilityScore ∧
      (calculateBusinessHealth ⟨100, 50, 50, 1/2⟩ [⟨"A", 10, 0, 0, 0, 0, 1⟩] [] 0).profitabilityScore ≤ 100) ∧
    (0 ≤ (calculateBusinessHealth ⟨100, 50, 50, 1/2⟩ [⟨"A", 10, 0, 0, 0, 0, 1⟩] [] 0).growthScore ∧
      (calculateBusinessHealth ⟨100, 50, 50, 1/2⟩ [⟨"A", 10, 0, 0, 0, 0, 1⟩] [] 0).growthScore ≤ 100) ∧
    (0 ≤ (calculateBusinessHealth ⟨100, 50, 50, 1/2⟩ [⟨"A", 10, 0, 0, 0, 0, 1⟩] [] 0).stabilityScore ∧
      (calculateBusinessHealth ⟨100, 50, 50, 1/2⟩ [⟨"A", 10, 0, 0, 0, 0, 1⟩] [] 0).stabilityScore ≤ 100) ∧
    (0 ≤ (calculateBusinessHealth ⟨100, 50, 50, 1/2⟩ [⟨"A", 10, 0, 0, 0, 0, 1⟩] [] 0).diversificationScore ∧
      (calculateBusinessHealth ⟨100, 50, 50, 1/2⟩ [⟨"A", 10, 0, 0, 0, 0, 1⟩] [] 0).diversificationScore ≤ 100) :=
  C7_health_range ⟨100, 50, 50, 1/2⟩ [⟨"A", 10, 0, 0, 0, 0, 1⟩] [] 0
    (by norm_num)
    (by
      intro p hp
      simp only [List.mem_cons, List.not_mem_nil, or_false] at hp
      subst hp
      norm_num)
    le_rfl

/-! Helper lemmas about the forecaster. -/

lemma singleton_fit (d : DailyRevenue) :
    calculateLinearRegression (regressionData [d]) = ⟨0, roundTo d.revenue 4, 0⟩ := by
  have henum : regressionData [d] = [⟨0, d.revenue⟩] := by
    simp [regressionData]
  rw [henum]
  simp only [calculateLinearRegression, List.length_singleton, List.map_singleton,
    List.sum_singleton]
  norm_num
  exact roundTo_zero 4

/-- C2 counterexample: on the single-day series with revenue `100` the
regression result carried by `forecastRevenue` has intercept `100`
(the mean of `y`), not `0`. -/
theorem C2_counterexample :
    (forecastRevenue (fun _ => 0) [⟨"2024-01-01", 100, 0, 100⟩] 1).intercept = 100 ∧
    (forecastRevenue (fun _ => 0) [⟨"2024-01-01", 100, 0, 100⟩] 1).intercept ≠ 0 := by
  have hfit := singleton_fit ⟨"2024-01-01", 100, 0, 100⟩
  have h100 : roundTo (100 : ℚ) 4 = 100 := roundTo_eq_self 100 4 1000000 (by norm_num)
  have : (forecastRevenue (fun _ => 0) [⟨"2024-01-01", 100, 0, 100⟩] 1).intercept = 100 := by
    simp only [forecastRevenue, if_neg (List.cons_ne_nil _ _), List.mergeSort_singleton,
      hfit, h100]
  exact ⟨this, by rw [this]; norm_num⟩

/-- C2 (amended): for the empty daily series the regression carried by
`forecastRevenue` returns slope = intercept = r² = 0; for a one-day series it
returns slope = 0 and r² = 0 but intercept = the day's revenue (rounded to 4
decimals); and for every regression input with fewer than 3 points the
residual standard error is 0. -/
theorem C2_regression_amended :
    (∀ (sq : ℚ → ℚ) (days : ℕ),
      forecastRevenue sq [] days = ⟨[], 0, 0, 0, .stable⟩) ∧
    (∀ (sq : ℚ → ℚ) (days : ℕ) (d : DailyRevenue),
      (forecastRevenue sq [d] days).slope = 0 ∧
      (forecastRevenue sq [d] days).r2 = 0 ∧
      (forecastRevenue sq [d] days).intercept = roundTo d.revenue 4) ∧
    (∀ (sq : ℚ → ℚ) (data : List Point) (slope intercept : ℚ),
      data.length < 3 →
      calculateStandardError sq data slope intercept = 0) := by
  refine ⟨fun sq days => rfl, fun sq days d => ?_, fun sq data slope intercept h => ?_⟩
  · have hfit := singleton_fit d
    refine ⟨?_, ?_, ?_⟩ <;>
      simp only [forecastRevenue, if_neg (List.cons_ne_nil _ _), List.mergeSort_singleton, hfit]
  · unfold calculateStandardError
    rw [if_pos (by omega)]

/-- Witness for C2: the amended statement instantiated at a concrete one-point
standard-error input and the empty forecast input. -/
theorem C2_witness :
    calculateStandardError (fun _ => 0) [⟨0, 5⟩] 1 2 = 0 ∧
    forecastRevenue (fun _ => 0) [] 30 = ⟨[], 0, 0, 0, .stable⟩ :=
  ⟨C2_regression_amended.2.2 (fun _ => 0) [⟨0, 5⟩] 1 2 (by norm_num),
   C2_regression_amended.1 (fun _ => 0) 30⟩

/-- C5: for every non-empty daily series, whenever the fitted R² carried in
the forecast result is below 0.3, `forecastRevenue` reports trend "stable",
whatever the slope. -/
theorem C5_lowR2_stable (sq : ℚ → ℚ) (dailyRevenue : List DailyRevenue)
    (days : ℕ) (h : dailyRevenue ≠ [])
    (h2 : (forecastRevenue sq dailyRevenue days).r2 < 3/10) :
    (forecastRevenue sq dailyRevenue days).trend = Trend.stable := by
  simp only [forecastRevenue, if_neg h] at h2 ⊢
  unfold determineTrend
  rw [if_pos h2]

/-- Witness for C5: the single-day series has r² = 0 < 0.3 and is reported
stable. -/
theorem C5_witness :
    (forecastRevenue (fun _ => 0) [⟨"2024-01-01", 100, 0, 100⟩] 1).trend = Trend.stable := by
  refine C5_lowR2_stable (fun _ => 0) [⟨"2024-01-01", 100, 0, 100⟩] 1 (by simp) ?_
  have hfit := singleton_fit ⟨"2024-01-01", 100, 0, 100⟩
  simp only [forecastRevenue, if_neg (List.cons_ne_nil _ _), List.mergeSort_singleton, hfit]
  norm_num

/-! Helper lemmas about the anomaly detector. -/

lemma constant_mean (l : List ℚ) (c : ℚ) (hne : l ≠ []) (h : ∀ x ∈ l, x = c) :
    calculateMean l = c := by
  unfold calculateMean
  rw [if_neg hne]
  rw [List.sum_eq_card_nsmul l c h, nsmul_eq_mul]
  have hlen : (l.length : ℚ) ≠ 0 :=
    Nat.cast_ne_zero.mpr (fun h0 => hne (List.eq_nil_of_length_eq_zero h0))
  field_simp

lemma constant_sq_sum (l : List ℚ) (c : ℚ) (h : ∀ x ∈ l, x = c) :
    (l.map (fun v => (v - c) ^ 2)).sum = 0 := by
  refine List.sum_eq_zero ?_
  intro x hx
  obtain ⟨v, hv, rfl⟩ := List.mem_map.mp hx
  rw [h v hv]
  ring

/-- C3 counterexample: the claim fails for a non-positive threshold.  On a
constant series every z-score is `0`, but `|0| ≥ 0` satisfies a threshold of
`0`, so every day is flagged (as a low-severity "drop"). -/
theorem C3_counterexample :
    (detectAnomalies (fun _ => 0) [⟨"2024-01-01", 100, 0, 100⟩] 0).anomalies ≠ [] := by
  simp only [detectAnomalies, if_neg (List.cons_ne_nil _ _), List.map_cons, List.map_nil]
  norm_num [calculateMean, calculateStandardDeviation, calculateZScore,
    List.filterMap_cons, List.mergeSort_singleton]

/-- C3 (amended): for every constant daily revenue series and every positive
threshold, `detectAnomalies` returns an empty anomaly list: the standard
deviation is `sq 0 = 0`, the `stdDev = 0` guard forces every z-score to `0`,
and `|0| < threshold`. -/
theorem C3_constant_series_amended (sq : ℚ → ℚ) (dailyRevenue : List DailyRevenue)
    (threshold r0 : ℚ) (hsq : sq 0 = 0)
    (hconst : ∀ day ∈ dailyRevenue, day.revenue = r0)
    (hth : 0 < threshold) :
    (detectAnomalies sq dailyRevenue threshold).anomalies = [] := by
  cases dailyRevenue with
  | nil => simp [detectAnomalies]
  | cons d0 rest =>
    have hne : d0 :: rest ≠ [] := List.cons_ne_nil _ _
    have hvals : ∀ x ∈ (d0 :: rest).map (fun day => day.revenue), x = r0 := by
      intro x hx
      obtain ⟨day, hday, rfl⟩ := List.mem_map.mp hx
      exact hconst day hday
    have hmean : calculateMean ((d0 :: rest).map (fun day => day.revenue)) = r0 :=
      constant_mean _ r0 (by simp) hvals
    have hsd : calculateStandardDeviation sq
        ((d0 :: rest).map (fun day => day.revenue)) r0 = 0 := by
      unfold calculateStandardDeviation
      rw [if_neg (by simp)]
      rw [constant_sq_sum _ r0 hvals]
      simpa using hsq
    simp only [detectAnomalies, if_neg hne, hmean, hsd]
    have hnil : (d0 :: rest).filterMap (fun day =>
        if threshold ≤ |calculateZScore day.revenue r0 0| then
          some { date := day.date
                 revenue := day.revenue
                 expectedRevenue := roundTo r0 2
                 deviation := roundTo (day.revenue - r0) 2
                 zScore := roundTo (calculateZScore day.revenue r0 0) 2
                 severity := determineSeverity (calculateZScore day.revenue r0 0)
                 type := if 0 < calculateZScore day.revenue r0 0 then .spike else .drop
                 explanation := generateExplanation day.date day.revenue r0
                   (if 0 < calculateZScore day.revenue r0 0 then .spike else .drop)
                   (determineSeverity (calculateZScore day.revenue r0 0)) : Anomaly }
        else none) = [] := by
      refine List.filterMap_eq_nil_iff.mpr ?_
      intro day hday
      have hz : calculateZScore day.revenue r0 0 = 0 := by
        simp [calculateZScore]
      rw [if_neg]
      rw [hz, abs_zero]
      exact not_le.mpr hth
    rw [hnil, List.mergeSort_nil]

/-- Witness for C3: a two-day constant series at the default threshold `2`
yields no anomalies. -/
theorem C3_witness :
    (detectAnomalies (fun _ => 0)
      [⟨"2024-01-01", 100, 0, 100⟩, ⟨"2024-01-02", 100, 0, 100⟩] 2).anomalies = [] :=
  C3_constant_series_amended (fun _ => 0)
    [⟨"2024-01-01", 100, 0, 100⟩, ⟨"2024-01-02", 100, 0, 100⟩] 2 100 rfl
    (by
      intro day hday
      simp only [List.mem_cons, List.not_mem_nil, or_false] at hday
      rcases hday with rfl | rfl <;> rfl)
    (by norm_num)

/-! Helper lemmas for the partition invariant (C4): sums over the grouping
maps, and preservation of "whole cents" values under grouping. -/

/-- A rational that is a whole number of `10⁻ᵈ` units (for `d = 2`: cents). -/
def IsFixed (q : ℚ) (d : ℕ) : Prop := ∃ n : ℤ, q * 10 ^ d = (n : ℚ)

lemma IsFixed.add {a b : ℚ} {d : ℕ} (ha : IsFixed a d) (hb : IsFixed b d) :
    IsFixed (a + b) d := by
  obtain ⟨na, hna⟩ := ha
  obtain ⟨nb, hnb⟩ := hb
  exact ⟨na + nb, by push_cast; rw [← hna, ← hnb]; ring⟩

lemma roundTo_of_isFixed {q : ℚ} {d : ℕ} (h : IsFixed q d) : roundTo q d = q := by
  obtain ⟨n, hn⟩ := h
  exact roundTo_eq_self q d n hn

lemma bumpRC_rev_sum (m : List (String × RCAcc)) (k : String) (r c : ℚ) :
    ((bumpRC m k r c).map (fun e => e.2.revenue)).sum =
      (m.map (fun e => e.2.revenue)).sum + r := by
  induction m with
  | nil => simp [bumpRC]
  | cons hd tl ih =>
    obtain ⟨k', v⟩ := hd
    simp only [bumpRC]
    split
    · simp only [List.map_cons, List.sum_cons]
      ring
    · simp only [List.map_cons, List.sum_cons, ih]
      ring

lemma bumpRC_cost_sum (m : List (String × RCAcc)) (k : String) (r c : ℚ) :
    ((bumpRC m k r c).map (fun e => e.2.cost)).sum =
      (m.map (fun e => e.2.cost)).sum + c := by
  induction m with
  | nil => simp [bumpRC]
  | cons hd tl ih =>
    obtain ⟨k', v⟩ := hd
    simp only [bumpRC]
    split
    · simp only [List.map_cons, List.sum_cons]
      ring
    · simp only [List.map_cons, List.sum_cons, ih]
      ring

lemma foldl_bumpRC_rev_sum (key : Transaction → String) (txs : List Transaction)
    (m : List (String × RCAcc)) :
    (((txs.foldl (fun acc tx => bumpRC acc (key tx) tx.revenue tx.cost) m)).map
        (fun e => e.2.revenue)).sum =
      (m.map (fun e => e.2.revenue)).sum + (txs.map (fun tx => tx.revenue)).sum := by
  induction txs generalizing m with
  | nil => simp
  | cons t ts ih =>
    simp only [List.foldl_cons, List.map_cons, List.sum_cons]
    rw [ih, bumpRC_rev_sum]
    ring

lemma foldl_bumpRC_cost_sum (key : Transaction → String) (txs : List Transaction)
    (m : List (String × RCAcc)) :
    (((txs.foldl (fun acc tx => bumpRC acc (key tx) tx.revenue tx.cost) m)).map
        (fun e => e.2.cost)).sum =
      (m.map (fun e => e.2.cost)).sum + (txs.map (fun tx => tx.cost)).sum := by
  induction txs generalizing m with
  | nil => simp
  | cons t ts ih =>
    simp only [List.foldl_cons, List.map_cons, List.sum_cons]
    rw [ih, bumpRC_cost_sum]
    ring

lemma bumpRC_fixed (m : List (String × RCAcc)) (k : String) (r c : ℚ)
    (hm : ∀ e ∈ m, IsFixed e.2.revenue 2 ∧ IsFixed e.2.cost 2)
    (hr : IsFixed r 2) (hc : IsFixed c 2) :
    ∀ e ∈ bumpRC m k r c, IsFixed e.2.revenue 2 ∧ IsFixed e.2.cost 2 := by
  induction m with
  | nil =>
    intro e he
    simp only [bumpRC, List.mem_singleton] at he
    subst he
    exact ⟨hr, hc⟩
  | cons hd tl ih =>
    obtain ⟨k', v⟩ := hd
    have hv := hm (k', v) (List.mem_cons_self _ _)
    have htl : ∀ e ∈ tl, IsFixed e.2.revenue 2 ∧ IsFixed e.2.cost 2 :=
      fun e he => hm e (List.mem_cons_of_mem _ he)
    intro e he
    simp only [bumpRC] at he
    split at he
    · rcases List.mem_cons.mp he with rfl | hmem
      · exact ⟨hv.1.add hr, hv.2.add hc⟩
      · exact htl e hmem
    · rcases List.mem_cons.mp he with rfl | hmem
      · exact hv
      · exact ih htl e hmem

lemma foldl_bumpRC_fixed (key : Transaction → String) (txs : List Transaction) :
    ∀ m : List (String × RCAcc),
      (∀ e ∈ m, IsFixed e.2.revenue 2 ∧ IsFixed e.2.cost 2) →
      (∀ tx ∈ txs, IsFixed tx.revenue 2 ∧ IsFixed tx.cost 2) →
      ∀ e ∈ txs.foldl (fun acc tx => bumpRC acc (key tx) tx.revenue tx.cost) m,
        IsFixed e.2.revenue 2 ∧ IsFixed e.2.cost 2 := by
  induction txs with
  | nil => exact fun m hm _ => hm
  | cons t ts ih =>
    intro m hm htx
    simp only [List.foldl_cons]
    have ht := htx t (List.mem_cons_self _ _)
    exact ih (bumpRC m (key t) t.revenue t.cost)
      (bumpRC_fixed m (key t) t.revenue t.cost hm ht.1 ht.2)
      (fun tx h => htx tx (List.mem_cons_of_mem _ h))

lemma bumpP_rev_sum (m : List (String × PAcc)) (k : String) (r c q : ℚ) :
    ((bumpP m k r c q).map (fun e => e.2.revenue)).sum =
      (m.map (fun e => e.2.revenue)).sum + r := by
  induction m with
  | nil => simp [bumpP]
  | cons hd tl ih =>
    obtain ⟨k', v⟩ := hd
    simp only [bumpP]
    split
    · simp only [List.map_cons, List.sum_cons]
      ring
    · simp only [List.map_cons, List.sum_cons, ih]
      ring

lemma bumpP_cost_sum (m : List (String × PAcc)) (k : String) (r c q : ℚ) :
    ((bumpP m k r c q).map (fun e => e.2.cost)).sum =
      (m.map (fun e => e.2.cost)).sum + c := by
  induction m with
  | nil => simp [bumpP]
  | cons hd tl ih =>
    obtain ⟨k', v⟩ := hd
    simp only [bumpP]
    split
    · simp only [List.map_cons, List.sum_cons]
      ring
    · simp only [List.map_cons, List.sum_cons, ih]
      ring

lemma foldl_bumpP_rev_sum (txs : List Transaction) (m : List (String × PAcc)) :
    (((txs.foldl (fun acc tx => bumpP acc tx.productName tx.revenue tx.cost tx.quantity) m)).map
        (fun e => e.2.revenue)).sum =
      (m.map (fun e => e.2.revenue)).sum + (txs.map (fun tx => tx.revenue)).sum := by
  induction txs generalizing m with
  | nil => simp
  | cons t ts ih =>
    simp only [List.foldl_cons, List.map_cons, List.sum_cons]
    rw [ih, bumpP_rev_sum]
    ring

lemma foldl_bumpP_cost_sum (txs : List Transaction) (m : List (String × PAcc)) :
    (((txs.foldl (fun acc tx => bumpP acc tx.productName tx.revenue tx.cost tx.quantity) m)).map
        (fun e => e.2.cost)).sum =
      (m.map (fun e => e.2.cost)).sum + (txs.map (fun tx => tx.cost)).sum := by
  induction txs generalizing m with
  | nil => simp
  | cons t ts ih =>
    simp only [List.foldl_cons, List.map_cons, List.sum_cons]
    rw [ih, bumpP_cost_sum]
    ring

lemma bumpP_fixed (m : List (String × PAcc)) (k : String) (r c q : ℚ)
    (hm : ∀ e ∈ m, IsFixed e.2.revenue 2 ∧ IsFixed e.2.cost 2)
    (hr : IsFixed r 2) (hc : IsFixed c 2) :
    ∀ e ∈ bumpP m k r c q, IsFixed e.2.revenue 2 ∧ IsFixed e.2.cost 2 := by
  induction m with
  | nil =>
    intro e he
    simp only [bumpP, List.mem_singleton] at he
    subst he
    exact ⟨hr, hc⟩
  | cons hd tl ih =>
    obtain ⟨k', v⟩ := hd
    have hv := hm (k', v) (List.mem_cons_self _ _)
    have htl : ∀ e ∈ tl, IsFixed e.2.revenue 2 ∧ IsFixed e.2.cost 2 :=
      fun e he => hm e (List.mem_cons_of_mem _ he)
    intro e he
    simp only [bumpP] at he
    split at he
    · rcases List.mem_cons.mp he with rfl | hmem
      · exact ⟨hv.1.add hr, hv.2.add hc⟩
      · exact htl e hmem
    · rcases List.mem_cons.mp he with rfl | hmem
      · exact hv
      · exact ih htl e hmem

lemma foldl_bumpP_fixed (txs : List Transaction) :
    ∀ m : List (String × PAcc),
      (∀ e ∈ m, IsFixed e.2.revenue 2 ∧ IsFixed e.2.cost 2) →
      (∀ tx ∈ txs, IsFixed tx.revenue 2 ∧ IsFixed tx.cost 2) →
      ∀ e ∈ txs.foldl (fun acc tx => bumpP acc tx.productName tx.revenue tx.cost tx.quantity) m,
        IsFixed e.2.revenue 2 ∧ IsFixed e.2.cost 2 := by
  induction txs with
  | nil => exact fun m hm _ => hm
  | cons t ts ih =>
    intro m hm htx
    simp only [List.foldl_cons]
    have ht := htx t (List.mem_cons_self _ _)
    exact ih (bumpP m t.productName t.revenue t.cost t.quantity)
      (bumpP_fixed m t.productName t.revenue t.cost t.quantity hm ht.1 ht.2)
      (fun tx h => htx tx (List.mem_cons_of_mem _ h))

lemma dailyRevenue_sums (txs : List Transaction)
    (h : ∀ tx ∈ txs, IsFixed tx.revenue 2 ∧ IsFixed tx.cost 2) :
    ((calculateDailyRevenue txs).map (fun d => d.revenue)).sum =
        (txs.map (fun tx => tx.revenue)).sum ∧
      ((calculateDailyRevenue txs).map (fun d => d.cost)).sum =
        (txs.map (fun tx => tx.cost)).sum := by
  have hfix := foldl_bumpRC_fixed (fun tx => dateKey tx.date) txs []
    (by intro e he; simp at he) h
  have hsumr := foldl_bumpRC_rev_sum (fun tx => dateKey tx.date) txs []
  have hsumc := foldl_bumpRC_cost_sum (fun tx => dateKey tx.date) txs []
  simp only [List.map_nil, List.sum_nil, zero_add] at hsumr hsumc
  constructor
  · unfold calculateDailyRevenue
    calc ((((dailyMap txs).map (fun e =>
            { date := e.1
              revenue := roundTo e.2.revenue 2
              cost := roundTo e.2.cost 2
              profit := roundTo (e.2.revenue - e.2.cost) 2 : DailyRevenue })).mergeSort
            (fun a b => decide (a.date ≤ b.date))).map (fun d => d.revenue)).sum
        = (((dailyMap txs).map (fun e =>
            { date := e.1
              revenue := roundTo e.2.revenue 2
              cost := roundTo e.2.cost 2
              profit := roundTo (e.2.revenue - e.2.cost) 2 : DailyRevenue })).map
            (fun d => d.revenue)).sum :=
          List.Perm.sum_eq (List.Perm.map _ (List.mergeSort_perm _ _))
      _ = ((dailyMap txs).map (fun e => e.2.revenue)).sum := by
          rw [List.map_map]
          refine congrArg List.sum (List.map_congr_left ?_)
          intro e he
          exact roundTo_of_isFixed (hfix e he).1
      _ = (txs.map (fun tx => tx.revenue)).sum := hsumr
  · unfold calculateDailyRevenue
    calc ((((dailyMap txs).map (fun e =>
            { date := e.1
              revenue := roundTo e.2.revenue 2
              cost := roundTo e.2.cost 2
              profit := roundTo (e.2.revenue - e.2.cost) 2 : DailyRevenue })).mergeSort
            (fun a b => decide (a.date ≤ b.date))).map (fun d => d.cost)).sum
        = (((dailyMap txs).map (fun e =>
            { date := e.1
              revenue := roundTo e.2.revenue 2
              cost := roundTo e.2.cost 2
              profit := roundTo (e.2.revenue - e.2.cost) 2 : DailyRevenue })).map
            (fun d => d.cost)).sum :=
          List.Perm.sum_eq (List.Perm.map _ (List.mergeSort_perm _ _))
      _ = ((dailyMap txs).map (fun e => e.2.cost)).sum := by
          rw [List.map_map]
          refine congrArg List.sum (List.map_congr_left ?_)
          intro e he
          exact roundTo_of_isFixed (hfix e he).2
      _ = (txs.map (fun tx => tx.cost)).sum := hsumc

lemma monthlyRevenue_sums (txs : List Transaction)
    (h : ∀ tx ∈ txs, IsFixed tx.revenue 2 ∧ IsFixed tx.cost 2) :
    ((calculateMonthlyRevenue txs).map (fun m => m.revenue)).sum =
        (txs.map (fun tx => tx.revenue)).sum ∧
      ((calculateMonthlyRevenue txs).map (fun m => m.cost)).sum =
        (txs.map (fun tx => tx.cost)).sum := by
  have hfix := foldl_bumpRC_fixed (fun tx => monthKey tx.date) txs []
    (by intro e he; simp at he) h
  have hsumr := foldl_bumpRC_rev_sum (fun tx => monthKey tx.date) txs []
  have hsumc := foldl_bumpRC_cost_sum (fun tx => monthKey tx.date) txs []
  simp only [List.map_nil, List.sum_nil, zero_add] at hsumr hsumc
  constructor
  · unfold calculateMonthlyRevenue
    rw [List.Perm.sum_eq (List.Perm.map _ (List.mergeSort_perm _ _)), List.map_map]
    refine (congrArg List.sum (List.map_congr_left ?_)).trans hsumr
    intro e he
    exact roundTo_of_isFixed (hfix e he).1
  · unfold calculateMonthlyRevenue
    rw [List.Perm.sum_eq (List.Perm.map _ (List.mergeSort_perm _ _)), List.map_map]
    refine (congrArg List.sum (List.map_congr_left ?_)).trans hsumc
    intro e he
    exact roundTo_of_isFixed (hfix e he).2

lemma productPerformance_sums (txs : List Transaction)
    (h : ∀ tx ∈ txs, IsFixed tx.revenue 2 ∧ IsFixed tx.cost 2) :
    ((calculateProductPerformance txs).map (fun p => p.totalRevenue)).sum =
        (txs.map (fun tx => tx.revenue)).sum ∧
      ((calculateProductPerformance txs).map (fun p => p.totalCost)).sum =
        (txs.map (fun tx => tx.cost)).sum := by
  have hfix := foldl_bumpP_fixed txs [] (by intro e he; simp at he) h
  have hsumr := foldl_bumpP_rev_sum txs []
  have hsumc := foldl_bumpP_cost_sum txs []
  simp only [List.map_nil, List.sum_nil, zero_add] at hsumr hsumc
  constructor
  · unfold calculateProductPerformance
    rw [List.Perm.sum_eq (List.Perm.map _ (List.mergeSort_perm _ _)), List.map_map]
    refine (congrArg List.sum (List.map_congr_left ?_)).trans hsumr
    intro e he
    exact roundTo_of_isFixed (hfix e he).1
  · unfold calculateProductPerformance
    rw [List.Perm.sum_eq (List.Perm.map _ (List.mergeSort_perm _ _)), List.map_map]
    refine (congrArg List.sum (List.map_congr_left ?_)).trans hsumc
    intro e he
    exact roundTo_of_isFixed (hfix e he).2

/-- C4 counterexample: the partition identity fails as stated for sub-cent
amounts.  A single transaction with revenue `0.005` produces a daily entry of
`0.01` after the 2-decimal boundary rounding, so the rolled-up revenue sum is
`0.01 ≠ 0.005`. -/
theorem C4_counterexample :
    ¬(((calculateDailyRevenue [⟨⟨2024, 1, 1⟩, "X", 1, 1/200, 0⟩]).map
        (fun d => d.revenue)).sum =
      (([⟨⟨2024, 1, 1⟩, "X", 1, 1/200, 0⟩] : List Transaction).map
        (fun tx => tx.revenue)).sum) := by
  simp only [calculateDailyRevenue, dailyMap, List.foldl_cons, List.foldl_nil, bumpRC,
    List.map_cons, List.map_nil, List.mergeSort_singleton, List.sum_cons, List.sum_nil]
  norm_num [roundTo, toFixedInt]

/-- C4 (amended): for every transaction list whose revenue and cost amounts
are whole cents, the sum of revenue (and cost) over the daily, monthly and
per-product rollups each equals the corresponding sum over the transactions
(partition invariant; grouping preserves cent-ness so the boundary rounding
is the identity). -/
theorem C4_partition_amended (txs : List Transaction)
    (h : ∀ tx ∈ txs, IsFixed tx.revenue 2 ∧ IsFixed tx.cost 2) :
    ((calculateDailyRevenue txs).map (fun d => d.revenue)).sum =
        (txs.map (fun tx => tx.revenue)).sum ∧
      ((calculateDailyRevenue txs).map (fun d => d.cost)).sum =
        (txs.map (fun tx => tx.cost)).sum ∧
      ((calculateMonthlyRevenue txs).map (fun m => m.revenue)).sum =
        (txs.map (fun tx => tx.revenue)).sum ∧
      ((calculateMonthlyRevenue txs).map (fun m => m.cost)).sum =
        (txs.map (fun tx => tx.cost)).sum ∧
      ((calculateProductPerformance txs).map (fun p => p.totalRevenue)).sum =
        (txs.map (fun tx => tx.revenue)).sum ∧
      ((calculateProductPerformance txs).map (fun p => p.totalCost)).sum =
        (txs.map (fun tx => tx.cost)).sum := by
  obtain ⟨hd1, hd2⟩ := dailyRevenue_sums txs h
  obtain ⟨hm1, hm2⟩ := monthlyRevenue_sums txs h
  obtain ⟨hp1, hp2⟩ := productPerformance_sums txs h
  exact ⟨hd1, hd2, hm1, hm2, hp1, hp2⟩

/-- Witness for C4: the amended statement instantiated at one whole-cent
transaction. -/
theorem C4_witness :
    ((calculateDailyRevenue [⟨⟨2024, 1, 1⟩, "Espresso", 10, 35, 8⟩]).map
        (fun d => d.revenue)).sum =
      (([⟨⟨2024, 1, 1⟩, "Espresso", 10, 35, 8⟩] : List Transaction).map
        (fun tx => tx.revenue)).sum ∧
    ((calculateDailyRevenue [⟨⟨2024, 1, 1⟩, "Espresso", 10, 35, 8⟩]).map
        (fun d => d.cost)).sum =
      (([⟨⟨2024, 1, 1⟩, "Espresso", 10, 35, 8⟩] : List Transaction).map
        (fun tx => tx.cost)).sum ∧
    ((calculateMonthlyRevenue [⟨⟨2024, 1, 1⟩, "Espresso", 10, 35, 8⟩]).map
        (fun m => m.revenue)).sum =
      (([⟨⟨2024, 1, 1⟩, "Espresso", 10, 35, 8⟩] : List Transaction).map
        (fun tx => tx.revenue)).sum ∧
    ((calculateMonthlyRevenue [⟨⟨2024, 1, 1⟩, "Espresso", 10, 35, 8⟩]).map
        (fun m => m.cost)).sum =
      (([⟨⟨2024, 1, 1⟩, "Espresso", 10, 35, 8⟩] : List Transaction).map
        (fun tx => tx.cost)).sum ∧
    ((calculateProductPerformance [⟨⟨2024, 1, 1⟩, "Espresso", 10, 35, 8⟩]).map
        (fun p => p.totalRevenue)).sum =
      (([⟨⟨2024, 1, 1⟩, "Espresso", 10, 35, 8⟩] : List Transaction).map
        (fun tx => tx.revenue)).sum ∧
    ((calculateProductPerformance [⟨⟨2024, 1, 1⟩, "Espresso", 10, 35, 8⟩]).map
        (fun p => p.totalCost)).sum =
      (([⟨⟨2024, 1, 1⟩, "Espresso", 10, 35, 8⟩] : List Transaction).map
        (fun tx => tx.cost)).sum :=
  C4_partition_amended [⟨⟨2024, 1, 1⟩, "Espresso", 10, 35, 8⟩]
    (by
      intro tx htx
      simp only [List.mem_cons, List.not_mem_nil, or_false] at htx
      subst htx
      exact ⟨⟨3500, by norm_num⟩, ⟨800, by norm_num⟩⟩)

/-! Helper lemmas for counting insights in the fallback generator's
five conditional blocks. -/

lemma countP_ite1 {α : Type} (p : α → Bool) (c : Prop) [Decidable c] (x : α) :
    List.countP p (if c then [x] else []) =
      if c then (if p x then 1 else 0) else 0 := by
  split <;> simp [List.countP_cons]

lemma countP_ite2 {α : Type} (p : α → Bool) (c1 c2 : Prop) [Decidable c1]
    [Decidable c2] (x y : α) :
    List.countP p (if c1 then [x] else if c2 then [y] else []) =
      if c1 then (if p x then 1 else 0)
      else if c2 then (if p y then 1 else 0) else 0 := by
  split
  · simp [List.countP_cons]
  · split <;> simp [List.countP_cons]

lemma length_ite1_le {α : Type} (c : Prop) [Decidable c] (x : α) :
    (if c then [x] else []).length ≤ 1 := by
  split <;> simp

lemma length_ite2_le {α : Type} (c1 c2 : Prop) [Decidable c1] [Decidable c2]
    (x y : α) :
    (if c1 then [x] else if c2 then [y] else []).length ≤ 1 := by
  split
  · simp
  · split <;> simp

lemma countP_take6_blocks {α : Type} (p : α → Bool) (l1 l2 l3 l4 l5 : List α)
    (h1 : l1.length ≤ 1) (h2 : l2.length ≤ 1) (h3 : l3.length ≤ 1)
    (h4 : l4.length ≤ 1) (h5 : l5.length ≤ 1) :
    ((l1 ++ l2 ++ l3 ++ l4 ++ l5).take 6).countP p =
      (l1 ++ l2 ++ l3 ++ l4 ++ l5).countP p := by
  rw [List.take_of_length_le]
  simp only [List.length_append]
  omega

/-- C8: `generateFallbackInsights` is deterministic in its insight list and
executive summary: the ambient wall clock (the only impure input, feeding
`generatedAt`) does not influence either, so two runs on the same metrics at
different times agree on both. -/
theorem C8_fallback_deterministic (metrics : MetricsForInsight) (now1 now2 : ℤ) :
    (generateFallbackInsights now1 metrics).insights =
        (generateFallbackInsights now2 metrics).insights ∧
      (generateFallbackInsights now1 metrics).executiveSummary =
        (generateFallbackInsights now2 metrics).executiveSummary :=
  ⟨rfl, rfl⟩

/-- C9: the fallback emits exactly one "Low Profit Margin Alert" insight
(high-priority warning) iff profitMargin < 0.15, exactly one "Strong Profit
Margins" insight (medium-priority profitability) iff profitMargin > 0.30, and
hence no margin insight at all for margins in [0.15, 0.30]. -/
theorem C9_margin_insights (now : ℤ) (metrics : MetricsForInsight) :
    ((generateFallbackInsights now metrics).insights.countP
        (fun i => decide (i.title = "Low Profit Margin Alert")) =
      if metrics.profitMargin < 3/20 then 1 else 0) ∧
    ((generateFallbackInsights now metrics).insights.countP
        (fun i => decide (i.title = "Low Profit Margin Alert" ∧
          i.priority = Priority.high ∧ i.category = Category.warning)) =
      if metrics.profitMargin < 3/20 then 1 else 0) ∧
    ((generateFallbackInsights now metrics).insights.countP
        (fun i => decide (i.title = "Strong Profit Margins")) =
      if 3/10 < metrics.profitMargin then 1 else 0) ∧
    ((generateFallbackInsights now metrics).insights.countP
        (fun i => decide (i.title = "Strong Profit Margins" ∧
          i.priority = Priority.medium ∧ i.category = Category.profitability)) =
      if 3/10 < metrics.profitMargin then 1 else 0) := by
  refine ⟨?_, ?_, ?_, ?_⟩ <;>
  · simp only [generateFallbackInsights]
    rw [countP_take6_blocks _ _ _ _ _ _ (length_ite1_le _ _) (length_ite2_le _ _ _ _)
      (length_ite2_le _ _ _ _) (length_ite2_le _ _ _ _) (length_ite2_le _ _ _ _)]
    simp only [List.countP_append, countP_ite1, countP_ite2]
    simp
    try
      intro h
      rw [if_neg (by linarith)]

/-- C10: metrics produced by `prepareMetricsForInsight` carry the
forecaster's trend strings "increasing"/"decreasing"/"stable" in
`recentTrend`, while the fallback's trend branches test for "up"/"down", so
the trend-based "Positive Growth Trajectory" and "Declining Revenue Trend"
insights are never emitted. -/
theorem C10_trend_insights_unreachable (now : ℤ) (analytics : AnalyticsSummary)
    (forecast : ForecastResult) (anomalies : AnomalyDetectionResult) :
    (generateFallbackInsights now
        (prepareMetricsForInsight analytics forecast anomalies)).insights.countP
      (fun i => decide (i.title = "Positive Growth Trajectory" ∨
        i.title = "Declining Revenue Trend")) = 0 := by
  have hup : (prepareMetricsForInsight analytics forecast anomalies).trendAnalysis.recentTrend ≠
      "up" := by
    simp only [prepareMetricsForInsight]
    cases forecast.trend <;> simp [trendToString]
  have hdown : (prepareMetricsForInsight analytics forecast anomalies).trendAnalysis.recentTrend ≠
      "down" := by
    simp only [prepareMetricsForInsight]
    cases forecast.trend <;> simp [trendToString]
  simp only [generateFallbackInsights]
  rw [countP_take6_blocks _ _ _ _ _ _ (length_ite1_le _ _) (length_ite2_le _ _ _ _)
    (length_ite2_le _ _ _ _) (length_ite2_le _ _ _ _) (length_ite2_le _ _ _ _)]
  simp only [List.countP_append, countP_ite1, countP_ite2]
  simp [hup, hdown]

end LedgerMind
